import Mathlib

/-!
Verification of the Ghost→Bluesky bridge (`src/main.py`) against its
natural-language specification.

Strings from the Python source are embedded as `List Char`.  Python's
`dict.get` results are embedded as `Option`s, with `none` standing for a
missing-or-falsy value (Python `None`, `""`, `{}`), so that the source's
chained `or` fallbacks become explicit matches.  The remote Bluesky service
is embedded as an oracle (`Remote`) giving the response to the n-th write
call and the n-th authentication call; the observable effects of one
request-handling run (number of write calls, number of authentication
calls, backoff sleeps in seconds, in order) are collected in a `Trace`.
-/

namespace GhostXBluesky

/-- Characters stripped by Python's `str.rstrip()` (the whitespace subset
relevant here: space, tab, CR, LF, vertical tab, form feed). -/
def isPySpace (c : Char) : Bool :=
  c.isWhitespace || c = '\x0b' || c = '\x0c'

/-- Python `s.rstrip()`: remove trailing whitespace. -/
def rstrip (l : List Char) : List Char :=
  (l.reverse.dropWhile isPySpace).reverse

/-- Python slice `l[:k]` with a possibly negative bound `k`:
nonnegative `k` keeps the first `k` elements, negative `k` counts from the
end, clamped at zero. -/
def pyTake (k : Int) (l : List Char) : List Char :=
  if 0 ≤ k then l.take k.toNat else l.take ((l.length : Int) + k).toNat

/-- `available_chars` as computed on line 110 of `main.py`:
`max_length - url_length - 1`. -/
def available_chars (url : List Char) (max_length : Int) : Int :=
  max_length - (url.length : Int) - 1

/-- `GhostToBluesky.format_post_text` (main.py lines 108-116). -/
def format_post_text (title url : List Char) (max_length : Int) : List Char :=
  if (title.length : Int) ≤ available_chars url max_length then
    title ++ " ".toList ++ url
  else
    let truncated_title := rstrip (pyTake (available_chars url max_length - 3) title)
    truncated_title ++ "... ".toList ++ url

/-- The credential held in `self.bluesky_session`: the fields of the
session JSON that `post_to_bluesky` reads. -/
structure Cred where
  accessJwt : String
  did : String
deriving DecidableEq, Repr

/-- Outcome of one remote write call: an HTTP response with a status code,
or an exception raised by the request itself (network error). -/
inductive WriteResult where
  | status (code : Nat)
  | netError
deriving DecidableEq, Repr

/-- The remote service as an oracle: the response to the n-th write call
and to the n-th authentication call (`none` = authentication failure). -/
structure Remote where
  write : Nat → WriteResult
  auth : Nat → Option Cred

/-- The mutable state of the bridge: the held credential, or `none`
(`self.bluesky_session = None`). -/
structure BridgeState where
  bluesky_session : Option Cred
deriving DecidableEq, Repr

/-- Observable effects of a run: how many write calls and authentication
calls were made, and the backoff sleeps (in seconds, in order). -/
structure Trace where
  writeCalls : Nat
  authCalls : Nat
  sleeps : List Nat
deriving DecidableEq, Repr

/-- `max_retries` (main.py line 71). -/
def max_retries : Nat := 3

/-- `GhostToBluesky.create_bluesky_session` (main.py lines 48-64): one
authentication call; on success the new credential replaces the held one
and the call returns `true`; on failure (any exception, including a
non-2xx response) the held credential is left unchanged and the call
returns `false`. -/
def create_bluesky_session (orc : Remote) (s : BridgeState) (t : Trace) :
    Bool × BridgeState × Trace :=
  match orc.auth t.authCalls with
  | some c => (true, { bluesky_session := some c }, { t with authCalls := t.authCalls + 1 })
  | none => (false, s, { t with authCalls := t.authCalls + 1 })

/-- The retry loop `for attempt in range(max_retries)` of
`post_to_bluesky` (main.py lines 72-106), with `fuel` the number of
iterations remaining (`max_retries - attempt`).  Per iteration: one write
call; status 200 returns `True`; status 401 with `attempt < max_retries - 1`
re-authenticates (on failure returning `False` with the old credential
still held) and continues without sleeping; any other 4xx/5xx status makes
`raise_for_status` raise, which is caught, sleeping `2 ^ attempt` seconds
before the next iteration unless this was the last one; a non-200 status
below 400 falls through `raise_for_status` and the loop simply proceeds;
a network error is handled like a raised status. -/
def post_attempt_loop (orc : Remote) :
    Nat → Nat → BridgeState → Trace → Bool × BridgeState × Trace
  | 0, _, s, t => (false, s, t)
  | fuel + 1, attempt, s, t =>
    let t1 : Trace := { t with writeCalls := t.writeCalls + 1 }
    match orc.write t.writeCalls with
    | WriteResult.status code =>
      if code = 200 then
        (true, s, t1)
      else if code = 401 ∧ attempt < max_retries - 1 then
        match orc.auth t1.authCalls with
        | some c =>
          post_attempt_loop orc fuel (attempt + 1) { bluesky_session := some c }
            { t1 with authCalls := t1.authCalls + 1 }
        | none => (false, s, { t1 with authCalls := t1.authCalls + 1 })
      else if 400 ≤ code then
        if attempt < max_retries - 1 then
          post_attempt_loop orc fuel (attempt + 1) s
            { t1 with sleeps := t1.sleeps ++ [2 ^ attempt] }
        else
          (false, s, t1)
      else
        post_attempt_loop orc fuel (attempt + 1) s t1
    | WriteResult.netError =>
      if attempt < max_retries - 1 then
        post_attempt_loop orc fuel (attempt + 1) s
          { t1 with sleeps := t1.sleeps ++ [2 ^ attempt] }
      else
        (false, s, t1)

/-- `GhostToBluesky.post_to_bluesky` (main.py lines 66-106): if no
credential is held, authenticate first (returning `False` on failure),
then run the retry loop.  The `text` argument only feeds the request body
and does not influence control flow. -/
def post_to_bluesky (orc : Remote) (text : List Char) (s : BridgeState) (t : Trace) :
    Bool × BridgeState × Trace :=
  match s.bluesky_session with
  | none =>
    let r := create_bluesky_session orc s t
    if r.1 then post_attempt_loop orc max_retries 0 r.2.1 r.2.2
    else (false, r.2.1, r.2.2)
  | some _ => post_attempt_loop orc max_retries 0 s t

/-- The fields of the webhook's `post` object that `handle_webhook` reads;
`none` stands for a missing-or-falsy value (absent key, `None`, `""`). -/
structure PostData where
  title : Option (List Char)
  name : Option (List Char)
  url : Option (List Char)
  slug : Option (List Char)
deriving DecidableEq

/-- The webhook payload as `handle_webhook` probes it: `data.get('type')`,
`data.get('post')` and `data.get('data', \x7b\x7d).get('post', \x7b\x7d)`;
`none` stands for a missing-or-falsy value. -/
structure WebhookData where
  type : Option (List Char)
  post : Option PostData
  data_post : Option PostData
deriving DecidableEq

/-- Python `a or b` for a fetched string field: the fetched value if it is
present and non-empty, else the fallback. -/
def pyOrStr (a : Option (List Char)) (b : List Char) : List Char :=
  match a with
  | some s => if s = [] then b else s
  | none => b

/-- A Python exception that escapes a function uncaught. -/
inductive PyErr where
  | nameError (name : String)
deriving DecidableEq

/-- The local namespace of `GhostToBluesky.handle_webhook` (main.py line
118): its payload parameter is named `dict`, and no name `data` is bound
in its scope (the only `data =` assignment in the module is a local of the
separate `webhook` endpoint, line 181). -/
def localNames (dict : WebhookData) : String → Option WebhookData :=
  fun n => if n = "dict" then some dict else none

/-- The body of `GhostToBluesky.handle_webhook` (main.py lines 119-157) as
it would execute were its reads of the name `data` bound to the webhook
payload — the intent evidenced by the signature, the log messages and the
call site (line 186).  `uj` embeds `urllib.parse.urljoin` (a library
function opaque to this development) and `ghost_api_url` the configured
base origin.  Rejections return `false` without touching the remote; an
unrecognized event type returns `true` immediately. -/
def handle_webhook_body (orc : Remote) (uj : List Char → List Char → List Char)
    (ghost_api_url : List Char) (data : WebhookData) (s : BridgeState) (t : Trace) :
    Bool × BridgeState × Trace :=
  if data.type ≠ some ("post.published".toList) then
    (true, s, t)
  else
    match (match data.post with | some p => some p | none => data.data_post) with
    | none => (false, s, t)
    | some post =>
      let title := pyOrStr post.title (pyOrStr post.name ("New Post".toList))
      let url_path := pyOrStr post.url (pyOrStr post.slug [])
      if url_path = [] then
        (false, s, t)
      else
        let full_url := uj ghost_api_url url_path
        let post_text := format_post_text title full_url 200
        post_to_bluesky orc post_text s t

/-- `GhostToBluesky.handle_webhook` (main.py lines 118-157) as it actually
executes: the first statement of the body (line 121) reads the name
`data`, which the local namespace does not bind (the parameter is named
`dict`), so a `NameError` is raised before anything else runs; the
`except` handler (line 154) reads `data` again on line 156, so the
`NameError` escapes uncaught.  Every call therefore raises without making
any remote call, without touching the held credential, and without
returning a value; the intended body (`handle_webhook_body`) is never
reached. -/
def handle_webhook (orc : Remote) (uj : List Char → List Char → List Char)
    (ghost_api_url : List Char) (dict : WebhookData) (s : BridgeState) (t : Trace) :
    Except PyErr Bool × BridgeState × Trace :=
  match localNames dict "data" with
  | none => (Except.error (PyErr.nameError "data"), s, t)
  | some data =>
    let r := handle_webhook_body orc uj ghost_api_url data s t
    (Except.ok r.1, r.2.1, r.2.2)

theorem length_dropWhile_le (p : Char → Bool) (l : List Char) :
    (l.dropWhile p).length ≤ l.length := by
  induction l with
  | nil => simp [List.dropWhile]
  | cons a l ih =>
    rw [List.dropWhile]
    split
    · exact le_trans ih (by simp)
    · simp

theorem rstrip_length_le (l : List Char) : (rstrip l).length ≤ l.length := by
  unfold rstrip
  rw [List.length_reverse]
  calc (l.reverse.dropWhile isPySpace).length
      ≤ l.reverse.length := length_dropWhile_le _ _
    _ = l.length := List.length_reverse l

/-- C2: when `len(title) <= max_length - len(url) - 1`, `format_post_text`
returns exactly `title + " " + url`, unchanged. -/
theorem format_keeps_short_title (title url : List Char) (max_length : Int)
    (h : (title.length : Int) ≤ max_length - (url.length : Int) - 1) :
    format_post_text title url max_length = title ++ " ".toList ++ url := by
  have hc : (title.length : Int) ≤ available_chars url max_length := h
  unfold format_post_text
  rw [if_pos hc]

theorem format_keeps_short_title_witness :
    format_post_text ("hi".toList) ("u".toList) 10 = ("hi".toList) ++ " ".toList ++ ("u".toList) :=
  format_keeps_short_title ("hi".toList) ("u".toList) 10 (by decide)

/-- C1: when `available = max_length - len(url) - 1 >= 3` and
`len(title) > available`, `format_post_text` returns the first
`available - 3` characters of `title` with trailing whitespace trimmed,
followed by `"... " + url`; that truncated part is a prefix of `title`,
and the result's length is at most `max_length`. -/
theorem format_truncates_long_title (title url : List Char) (max_length : Int)
    (h3 : 3 ≤ available_chars url max_length)
    (hlong : available_chars url max_length < (title.length : Int)) :
    format_post_text title url max_length =
      rstrip (title.take (available_chars url max_length - 3).toNat)
        ++ "... ".toList ++ url
    ∧ title.take (available_chars url max_length - 3).toNat <+: title
    ∧ ((format_post_text title url max_length).length : Int) ≤ max_length := by
  have hnot : ¬ ((title.length : Int) ≤ available_chars url max_length) := not_le.mpr hlong
  have heq : format_post_text title url max_length =
      rstrip (title.take (available_chars url max_length - 3).toNat)
        ++ "... ".toList ++ url := by
    unfold format_post_text
    rw [if_neg hnot]
    unfold pyTake
    rw [if_pos (by omega : (0 : Int) ≤ available_chars url max_length - 3)]
  refine ⟨heq, List.take_prefix _ _, ?_⟩
  rw [heq]
  have hr : (rstrip (title.take (available_chars url max_length - 3).toNat)).length
      ≤ (available_chars url max_length - 3).toNat :=
    le_trans (rstrip_length_le _) (by simp [List.length_take])
  have hcast : ((available_chars url max_length - 3).toNat : Int)
      = available_chars url max_length - 3 :=
    Int.toNat_of_nonneg (by omega)
  have hurl : available_chars url max_length = max_length - (url.length : Int) - 1 := rfl
  have hlen : ((rstrip (title.take (available_chars url max_length - 3).toNat)
        ++ "... ".toList ++ url).length : Int)
      = ((rstrip (title.take (available_chars url max_length - 3).toNat)).length : Int)
        + 4 + (url.length : Int) := by
    simp [List.length_append]
    ring
  rw [hlen]
  have hr2 : ((rstrip (title.take (available_chars url max_length - 3).toNat)).length : Int)
      ≤ available_chars url max_length - 3 := by
    rw [← hcast]
    exact_mod_cast hr
  omega

theorem format_truncates_long_title_witness :
    format_post_text ("abcd efgh ijkl".toList) ("u".toList) 10 =
      rstrip (("abcd efgh ijkl".toList).take ((available_chars ("u".toList) 10 - 3).toNat))
        ++ "... ".toList ++ ("u".toList)
    ∧ ("abcd efgh ijkl".toList).take ((available_chars ("u".toList) 10 - 3).toNat)
      <+: ("abcd efgh ijkl".toList)
    ∧ ((format_post_text ("abcd efgh ijkl".toList) ("u".toList) 10).length : Int) ≤ 10 :=
  format_truncates_long_title ("abcd efgh ijkl".toList) ("u".toList) 10 (by decide) (by decide)

/-- C9 counterexample: for the spec's concrete example the url
`"https://example.com/p/abc"` has 25 characters, so the available budget is
`40 - 25 - 1 = 14`, not `13` as the spec computes. -/
theorem example_available_is_14_not_13 :
    available_chars ("https://example.com/p/abc".toList) 40 = 14
    ∧ ¬ available_chars ("https://example.com/p/abc".toList) 40 = 13 := by
  decide

/-- C9 (amended): the spec's concrete example produces exactly
`"Announcing... https://example.com/p/abc"`, with available budget
`40 - 25 - 1 = 14` and the slice keeping the first `11` characters
`"Announcing "`, whose trailing space is then trimmed. -/
theorem example_format_output :
    format_post_text ("Announcing our brand new product launch event".toList)
        ("https://example.com/p/abc".toList) 40
      = ("Announcing... https://example.com/p/abc".toList)
    ∧ available_chars ("https://example.com/p/abc".toList) 40 = 14
    ∧ pyTake (14 - 3) ("Announcing our brand new product launch event".toList)
      = ("Announcing ".toList)
    ∧ rstrip ("Announcing ".toList) = ("Announcing".toList) := by
  decide

/-- C10: `format_post_text` is total and always produces a string ending
in the url (no exception is raised, even where the slice bound
`available - 3` is negative); and in that under-specified region the
output can exceed `max_length`: with `url = "u"` and `max_length = 4` the
budget is `2 < 3`, the slice bound is negative, and the output of a
10-character title has length `14 > 4`. -/
theorem format_total_and_can_overflow :
    (∀ title url max_length : _, ∃ pre, format_post_text title url max_length = pre ++ url)
    ∧ available_chars ("u".toList) 4 < 3
    ∧ available_chars ("u".toList) 4 - 3 < 0
    ∧ 4 < ((format_post_text ("abcdefghij".toList) ("u".toList) 4).length : Int) := by
  refine ⟨?_, by decide, by decide, by decide⟩
  intro title url max_length
  unfold format_post_text
  split
  · exact ⟨title ++ " ".toList, by simp⟩
  · exact ⟨rstrip (pyTake (available_chars url max_length - 3) title) ++ "... ".toList,
      by simp⟩

/-- C3: against a remote that answers every write with status 500, a
`post_to_bluesky` call starting with a live credential makes exactly 3
write attempts and no authentication call, sleeps `2^0 = 1` then
`2^1 = 2` seconds before retries 1 and 2 (at least 3 seconds in all),
returns failure, and leaves the held credential unchanged. -/
theorem publish_exhausts_on_500 (orc : Remote) (c : Cred) (text : List Char)
    (h : ∀ n, orc.write n = WriteResult.status 500) :
    post_to_bluesky orc text ⟨some c⟩ ⟨0, 0, []⟩
      = (false, ⟨some c⟩, ⟨3, 0, [2 ^ 0, 2 ^ 1]⟩)
    ∧ 3 ≤ List.sum [2 ^ 0, 2 ^ 1] := by
  refine ⟨?_, by decide⟩
  have h0 := h 0
  have h1 := h 1
  have h2 := h 2
  simp [post_to_bluesky, post_attempt_loop, max_retries, h0, h1, h2]

theorem publish_exhausts_on_500_witness :
    post_to_bluesky ⟨fun _ => WriteResult.status 500, fun _ => none⟩ []
        ⟨some ⟨"j", "d"⟩⟩ ⟨0, 0, []⟩
      = (false, ⟨some ⟨"j", "d"⟩⟩, ⟨3, 0, [2 ^ 0, 2 ^ 1]⟩)
    ∧ 3 ≤ List.sum [2 ^ 0, 2 ^ 1] :=
  publish_exhausts_on_500 ⟨fun _ => WriteResult.status 500, fun _ => none⟩ ⟨"j", "d"⟩ []
    (fun _ => rfl)

/-- C4: when the first write returns 401, re-authentication yields a new
credential, and the second write returns 200, a `post_to_bluesky` call
starting with a live credential returns success with exactly 2 write
calls, exactly 1 authentication call, and no backoff sleep. -/
theorem publish_delivered_after_reauth (orc : Remote) (c c2 : Cred) (text : List Char)
    (h0 : orc.write 0 = WriteResult.status 401)
    (h1 : orc.write 1 = WriteResult.status 200)
    (ha : orc.auth 0 = some c2) :
    post_to_bluesky orc text ⟨some c⟩ ⟨0, 0, []⟩ = (true, ⟨some c2⟩, ⟨2, 1, []⟩) := by
  simp [post_to_bluesky, post_attempt_loop, max_retries, h0, h1, ha]

theorem publish_delivered_after_reauth_witness :
    post_to_bluesky
        ⟨fun n => if n = 0 then WriteResult.status 401 else WriteResult.status 200,
          fun _ => some ⟨"j2", "d2"⟩⟩ [] ⟨some ⟨"j", "d"⟩⟩ ⟨0, 0, []⟩
      = (true, ⟨some ⟨"j2", "d2"⟩⟩, ⟨2, 1, []⟩) :=
  publish_delivered_after_reauth
    ⟨fun n => if n = 0 then WriteResult.status 401 else WriteResult.status 200,
      fun _ => some ⟨"j2", "d2"⟩⟩ ⟨"j", "d"⟩ ⟨"j2", "d2"⟩ [] rfl rfl rfl

/-- C6 counterexample: after a 401 on the first write and a failed
re-authentication, the manager does not end up holding no credential: the
stale credential is still held (`create_bluesky_session` never clears
`bluesky_session` on failure, and the 401 branch does not clear it
either). -/
theorem reauth_failure_not_uninitialized :
    post_to_bluesky ⟨fun _ => WriteResult.status 401, fun _ => none⟩ []
        ⟨some ⟨"j", "d"⟩⟩ ⟨0, 0, []⟩
      = (false, ⟨some ⟨"j", "d"⟩⟩, ⟨1, 1, []⟩)
    ∧ ¬ (post_to_bluesky ⟨fun _ => WriteResult.status 401, fun _ => none⟩ []
        ⟨some ⟨"j", "d"⟩⟩ ⟨0, 0, []⟩).2.1.bluesky_session = none := by
  decide

theorem post_attempt_loop_keeps_some (orc : Remote) (fuel : Nat) :
    ∀ (attempt : Nat) (s : BridgeState) (t : Trace),
      s.bluesky_session ≠ none →
      (post_attempt_loop orc fuel attempt s t).2.1.bluesky_session ≠ none := by
  induction fuel with
  | zero =>
    intro attempt s t h
    simpa [post_attempt_loop] using h
  | succ n ih =>
    intro attempt s t h
    rw [post_attempt_loop]
    cases hw : orc.write t.writeCalls with
    | status code =>
      by_cases h200 : code = 200
      · simpa [h200] using h
      · by_cases h401 : code = 401 ∧ attempt < max_retries - 1
        · simp only [if_neg h200, if_pos h401]
          cases ha : orc.auth t.authCalls with
          | some c =>
            simp [ha]
            exact ih (attempt + 1) ⟨some c⟩ _ (by simp)
          | none =>
            simpa [ha] using h
        · by_cases h400 : 400 ≤ code
          · by_cases hlast : attempt < max_retries - 1
            · simp only [if_neg h200, if_neg h401, if_pos h400, if_pos hlast]
              exact ih (attempt + 1) s _ h
            · simp only [if_neg h200, if_neg h401, if_pos h400, if_neg hlast]
              simpa using h
          · simp only [if_neg h200, if_neg h401, if_neg h400]
            exact ih (attempt + 1) s _ h
    | netError =>
      by_cases hlast : attempt < max_retries - 1
      · simp only [if_pos hlast]
        exact ih (attempt + 1) s _ h
      · simp only [if_neg hlast]
        simpa using h

/-- C6 (amended): whenever a write attempt returns 401 and retry budget
remains — at any attempt index, from any state and any point of the run —
the manager immediately re-authenticates, making exactly one
authentication call with no backoff sleep; if that re-authentication
fails, the call returns failure with the state exactly as it was, the
stale credential still held.  And in general, a `post_to_bluesky` call
that holds a credential is never left holding none: the credential is
replaced or retained, never cleared. -/
theorem reauth_failure_keeps_stale_credential (orc : Remote) :
    (∀ (fuel attempt : Nat) (s : BridgeState) (t : Trace),
        orc.write t.writeCalls = WriteResult.status 401 →
        attempt < max_retries - 1 →
        orc.auth t.authCalls = none →
        post_attempt_loop orc (fuel + 1) attempt s t
          = (false, s, ⟨t.writeCalls + 1, t.authCalls + 1, t.sleeps⟩))
    ∧ (∀ (text : List Char) (s : BridgeState) (t : Trace),
        s.bluesky_session ≠ none →
        (post_to_bluesky orc text s t).2.1.bluesky_session ≠ none) := by
  constructor
  · intro fuel attempt s t hw hb ha
    rw [post_attempt_loop, hw]
    simp [hb, ha]
  · intro text s t h
    cases hs : s.bluesky_session with
    | none => exact absurd hs h
    | some c =>
      unfold post_to_bluesky
      rw [hs]
      exact post_attempt_loop_keeps_some orc max_retries 0 s t h

theorem reauth_failure_keeps_stale_credential_witness :
    post_attempt_loop ⟨fun _ => WriteResult.status 401, fun _ => none⟩ 3 0
        ⟨some ⟨"jw", "dd"⟩⟩ ⟨0, 0, []⟩
      = (false, ⟨some ⟨"jw", "dd"⟩⟩, ⟨0 + 1, 0 + 1, []⟩)
    ∧ (post_to_bluesky ⟨fun _ => WriteResult.status 401, fun _ => none⟩ ("t".toList)
        ⟨some ⟨"jw", "dd"⟩⟩ ⟨0, 0, []⟩).2.1.bluesky_session ≠ none :=
  ⟨(reauth_failure_keeps_stale_credential
      ⟨fun _ => WriteResult.status 401, fun _ => none⟩).1 2 0
      ⟨some ⟨"jw", "dd"⟩⟩ ⟨0, 0, []⟩ rfl (by decide) rfl,
    (reauth_failure_keeps_stale_credential
      ⟨fun _ => WriteResult.status 401, fun _ => none⟩).2 ("t".toList)
      ⟨some ⟨"jw", "dd"⟩⟩ ⟨0, 0, []⟩ (by simp)⟩

theorem post_attempt_loop_call_bound (orc : Remote) (fuel : Nat) :
    ∀ (attempt : Nat) (s : BridgeState) (t : Trace),
      (post_attempt_loop orc fuel attempt s t).2.2.writeCalls ≤ t.writeCalls + fuel
      ∧ (post_attempt_loop orc fuel attempt s t).2.2.authCalls
        ≤ t.authCalls + (max_retries - 1 - attempt) := by
  induction fuel with
  | zero =>
    intro attempt s t
    simp [post_attempt_loop]
  | succ n ih =>
    intro attempt s t
    rw [post_attempt_loop]
    cases hw : orc.write t.writeCalls with
    | status code =>
      by_cases h200 : code = 200
      · simp [h200, max_retries]
      · by_cases h401 : code = 401 ∧ attempt < max_retries - 1
        · have hlt : attempt < max_retries - 1 := h401.2
          simp only [max_retries] at hlt
          cases ha : orc.auth (t.authCalls) with
          | some c =>
            have h := ih (attempt + 1) ⟨some c⟩
              ⟨t.writeCalls + 1, t.authCalls + 1, t.sleeps⟩
            simp only [if_neg h200, if_pos h401]
            simp [max_retries, ha] at h ⊢
            omega
          | none =>
            simp only [if_neg h200, if_pos h401]
            simp [max_retries, ha]
            omega
        · by_cases h400 : 400 ≤ code
          · by_cases hlast : attempt < max_retries - 1
            · have h := ih (attempt + 1) s
                ⟨t.writeCalls + 1, t.authCalls, t.sleeps ++ [2 ^ attempt]⟩
              simp only [if_neg h200, if_neg h401, if_pos h400, if_pos hlast]
              simp [max_retries] at h ⊢
              omega
            · simp only [if_neg h200, if_neg h401, if_pos h400, if_neg hlast]
              simp [max_retries]
          · have h := ih (attempt + 1) s ⟨t.writeCalls + 1, t.authCalls, t.sleeps⟩
            simp only [if_neg h200, if_neg h401, if_neg h400]
            simp [max_retries] at h ⊢
            omega
    | netError =>
      by_cases hlast : attempt < max_retries - 1
      · have h := ih (attempt + 1) s
          ⟨t.writeCalls + 1, t.authCalls, t.sleeps ++ [2 ^ attempt]⟩
        simp only [if_pos hlast]
        simp [max_retries] at h ⊢
        omega
      · simp only [if_neg hlast]
        simp [max_retries]

/-- C5 counterexample: against a remote that answers every write with 401
and every authentication with a fresh credential, one `post_to_bluesky`
call starting with a live credential makes 3 write calls and 2
re-authentication calls — 5 remote calls, more than the 4 the spec
allows. -/
theorem publish_five_remote_calls :
    (post_to_bluesky ⟨fun _ => WriteResult.status 401, fun _ => some ⟨"j2", "d2"⟩⟩ []
          ⟨some ⟨"j", "d"⟩⟩ ⟨0, 0, []⟩).2.2.writeCalls
      + (post_to_bluesky ⟨fun _ => WriteResult.status 401, fun _ => some ⟨"j2", "d2"⟩⟩ []
          ⟨some ⟨"j", "d"⟩⟩ ⟨0, 0, []⟩).2.2.authCalls = 5
    ∧ ¬ ((post_to_bluesky ⟨fun _ => WriteResult.status 401, fun _ => some ⟨"j2", "d2"⟩⟩ []
          ⟨some ⟨"j", "d"⟩⟩ ⟨0, 0, []⟩).2.2.writeCalls
      + (post_to_bluesky ⟨fun _ => WriteResult.status 401, fun _ => some ⟨"j2", "d2"⟩⟩ []
          ⟨some ⟨"j", "d"⟩⟩ ⟨0, 0, []⟩).2.2.authCalls ≤ 4) := by
  decide

/-- C5 (amended): for every sequence of remote responses and every
starting state, a single `post_to_bluesky` call makes at most 3 write
calls, at most 3 authentication calls (1 initial plus up to 2
re-authentications), and at most 6 remote calls in total. -/
theorem publish_remote_call_bound (orc : Remote) (text : List Char) (s : BridgeState) :
    (post_to_bluesky orc text s ⟨0, 0, []⟩).2.2.writeCalls ≤ 3
    ∧ (post_to_bluesky orc text s ⟨0, 0, []⟩).2.2.authCalls ≤ 3
    ∧ (post_to_bluesky orc text s ⟨0, 0, []⟩).2.2.writeCalls
      + (post_to_bluesky orc text s ⟨0, 0, []⟩).2.2.authCalls ≤ 6 := by
  unfold post_to_bluesky
  cases hs : s.bluesky_session with
  | some c =>
    have h := post_attempt_loop_call_bound orc max_retries 0 s ⟨0, 0, []⟩
    simp [max_retries] at h ⊢
    omega
  | none =>
    unfold create_bluesky_session
    cases ha : orc.auth 0 with
    | some c =>
      have h := post_attempt_loop_call_bound orc max_retries 0 ⟨some c⟩ ⟨0, 1, []⟩
      simp [max_retries, ha] at h ⊢
      omega
    | none =>
      simp [ha]

/-- C8 (code bug): on an event of unrecognized kind
(`"post.unpublished"`), `handle_webhook` as written does not return
success as the claim — and the body's own `return True` on line 126 —
intend: it raises `NameError` for the unbound name `data` (the payload
parameter is named `dict`, line 118), though it indeed makes no remote
call and leaves the held credential and trace unchanged; the intended
body, with `data` bound to the payload, would return success with no
remote call. -/
theorem unpublished_event_raises_not_returns :
    handle_webhook ⟨fun _ => WriteResult.status 200, fun _ => none⟩ (fun a b => a ++ b)
        ("https://g.example".toList)
        ⟨some ("post.unpublished".toList), none, none⟩ ⟨some ⟨"j", "d"⟩⟩ ⟨0, 0, []⟩
      = (Except.error (PyErr.nameError "data"), ⟨some ⟨"j", "d"⟩⟩, ⟨0, 0, []⟩)
    ∧ handle_webhook_body ⟨fun _ => WriteResult.status 200, fun _ => none⟩ (fun a b => a ++ b)
        ("https://g.example".toList)
        ⟨some ("post.unpublished".toList), none, none⟩ ⟨some ⟨"j", "d"⟩⟩ ⟨0, 0, []⟩
      = (true, ⟨some ⟨"j", "d"⟩⟩, ⟨0, 0, []⟩) :=
  ⟨rfl, rfl⟩

/-- C7 counterexample: on a `"post.published"` event whose post lacks a
usable title (no `title`, no `name`) but has a url, `handle_webhook` does
not return the rejection result: as written it raises `NameError`
(returning nothing), and even the intended body does not reject — the
title falls back to `"New Post"` and the remote is contacted (one write
call), returning success. -/
theorem missing_title_not_rejected :
    handle_webhook ⟨fun _ => WriteResult.status 200, fun _ => none⟩ (fun a b => a ++ b)
        ("https://g.example".toList)
        ⟨some ("post.published".toList), some ⟨none, none, some ("/p/x".toList), none⟩, none⟩
        ⟨some ⟨"j", "d"⟩⟩ ⟨0, 0, []⟩
      = (Except.error (PyErr.nameError "data"), ⟨some ⟨"j", "d"⟩⟩, ⟨0, 0, []⟩)
    ∧ handle_webhook_body ⟨fun _ => WriteResult.status 200, fun _ => none⟩ (fun a b => a ++ b)
        ("https://g.example".toList)
        ⟨some ("post.published".toList), some ⟨none, none, some ("/p/x".toList), none⟩, none⟩
        ⟨some ⟨"j", "d"⟩⟩ ⟨0, 0, []⟩
      = (true, ⟨some ⟨"j", "d"⟩⟩, ⟨1, 0, []⟩) :=
  ⟨rfl, rfl⟩

/-- C7 (amended): on a `"post.published"` event whose post data is
missing, or whose post has no usable url and no usable slug,
`handle_webhook` as written makes no remote call but raises `NameError`
(state and trace unchanged) instead of returning the rejection result;
the intended body, with `data` bound to the payload, returns the rejection
result without any remote call — while a missing title alone is not
grounds for rejection (it falls back to `"New Post"`). -/
theorem rejects_missing_post_or_path (orc : Remote)
    (uj : List Char → List Char → List Char) (g : List Char)
    (dict : WebhookData) (s : BridgeState) (t : Trace)
    (hk : dict.type = some ("post.published".toList))
    (hp : ∀ p, (match dict.post with | some q => some q | none => dict.data_post) = some p →
      pyOrStr p.url (pyOrStr p.slug []) = []) :
    handle_webhook orc uj g dict s t = (Except.error (PyErr.nameError "data"), s, t)
    ∧ handle_webhook_body orc uj g dict s t = (false, s, t) := by
  constructor
  · rfl
  · unfold handle_webhook_body
    rw [if_neg (by simp [hk])]
    cases hsel : (match dict.post with | some q => some q | none => dict.data_post) with
    | none => rfl
    | some p =>
      simp [hp p hsel]

theorem rejects_missing_post_or_path_witness :
    handle_webhook ⟨fun _ => WriteResult.status 200, fun _ => none⟩ (fun a b => a ++ b)
        ("https://g.example".toList)
        ⟨some ("post.published".toList), some ⟨some ("T".toList), none, none, none⟩, none⟩
        ⟨some ⟨"j", "d"⟩⟩ ⟨0, 0, []⟩
      = (Except.error (PyErr.nameError "data"), ⟨some ⟨"j", "d"⟩⟩, ⟨0, 0, []⟩)
    ∧ handle_webhook_body ⟨fun _ => WriteResult.status 200, fun _ => none⟩ (fun a b => a ++ b)
        ("https://g.example".toList)
        ⟨some ("post.published".toList), some ⟨some ("T".toList), none, none, none⟩, none⟩
        ⟨some ⟨"j", "d"⟩⟩ ⟨0, 0, []⟩
      = (false, ⟨some ⟨"j", "d"⟩⟩, ⟨0, 0, []⟩) :=
  rejects_missing_post_or_path ⟨fun _ => WriteResult.status 200, fun _ => none⟩
    (fun a b => a ++ b) ("https://g.example".toList)
    ⟨some ("post.published".toList), some ⟨some ("T".toList), none, none, none⟩, none⟩
    ⟨some ⟨"j", "d"⟩⟩ ⟨0, 0, []⟩ rfl (by intro p hp; cases hp; rfl)

end GhostXBluesky
